import Mathlib

/-!
Shallow embedding of the Luxury Catering API backend (`src/main.py`).

The repository ships `main.py` only; the `database` module (`db`,
`create_document`, `get_documents`) and the `schemas` module (`MenuItem`,
`Testimonial`, `GalleryImage`, `ContactInquiry`) are imported there but their
source files are absent, so those two components are modelled from the spec
(§3, §4.1, §4.2).  Handlers are translated line by line from `main.py`.
-/

/-- A field value inside a stored document: a string, a list of strings, or a
store-assigned identifier (ObjectId). -/
inductive Value where
  | str : String → Value
  | strList : List String → Value
  | vid : Nat → Value
deriving DecidableEq

/-- A document: an ordered key/value mapping, as a Python dict's items. -/
abbrev Doc : Type := List (String × Value)

/-- Modelled from the spec (§4.2; `database.py` is absent from `src/`): the
document database handle.  `colls` maps a collection name to its documents in
insertion order, `collNames` is the store's list of collection names, `nextId`
feeds the store-assigned identifiers, and `healthy`/`failMsg` model the
connection state: when `healthy` is false every storage operation fails fast
with the `StorageError` message `failMsg` (spec §4.2: a degraded adapter
"fails fast with StorageError rather than retrying").  The handle always has a
`name` (as a pymongo database does, so `hasattr(db, 'name')` holds). -/
structure DB where
  name : String
  colls : String → List Doc
  collNames : List String
  nextId : Nat
  healthy : Bool
  failMsg : String

/-- Process state visible to the handlers: the optional database handle (the
`db` global, `None` when storage was never configured) and the two
environment variables read by `GET /test`. -/
structure Env where
  db : Option DB
  envDatabaseUrl : Option String
  envDatabaseName : Option String

/-- Modelled from the spec (§4.2): `countDocuments` — document count of a
collection, failing with the storage error on connection failure. -/
def count_documents (d : DB) (c : String) : Except String Nat :=
  if d.healthy then .ok (d.colls c).length else .error d.failMsg

/-- Insertion of one document into a collection of the handle: the store
appends the record, stamped with a fresh store-assigned `_id`, and records the
collection name. -/
def DB.insert (d : DB) (c : String) (doc : Doc) : DB :=
  { d with
    colls := fun c2 => if c2 = c then d.colls c ++ [doc ++ [("_id", Value.vid d.nextId)]] else d.colls c2
    collNames := if d.collNames.contains c then d.collNames else d.collNames ++ [c]
    nextId := d.nextId + 1 }

/-- Modelled from the spec (§4.2): `createDocument(collection, record)` —
inserts the record, failing with `StorageError` if the connection is
unavailable or was never configured. -/
def create_document (env : Env) (c : String) (doc : Doc) : Except String Env :=
  match env.db with
  | none => .error "Database not available"
  | some d =>
    if d.healthy then .ok { env with db := some (d.insert c doc) }
    else .error d.failMsg

/-- Modelled from the spec (§4.2): `getDocuments(collection)` — all documents
of the collection in the store's natural order (empty when the collection does
not exist), failing with `StorageError` on connection failure. -/
def get_documents (env : Env) (c : String) : Except String (List Doc) :=
  match env.db with
  | none => .error "Database not available"
  | some d => if d.healthy then .ok (d.colls c) else .error d.failMsg

/-- Modelled from the spec (§4.3 `/test`): `db.list_collection_names()`,
failing on connection failure. -/
def list_collection_names (d : DB) : Except String (List String) :=
  if d.healthy then .ok d.collNames else .error d.failMsg

/-- Lookup of a key in a document (a Python dict access). -/
def docGet (d : Doc) (k : String) : Option Value :=
  List.lookup k d

/-- A required string field of a pydantic model: present and a string, else a
`ValidationError`. -/
def getStr (d : Doc) (k : String) : Except String String :=
  match docGet d k with
  | some (Value.str s) => .ok s
  | some _ => .error ("validation error: field " ++ k ++ " is not a string")
  | none => .error ("validation error: field " ++ k ++ " required")

/-- A required list-of-strings field of a pydantic model. -/
def getStrList (d : Doc) (k : String) : Except String (List String) :=
  match docGet d k with
  | some (Value.strList l) => .ok l
  | some _ => .error ("validation error: field " ++ k ++ " is not a list of strings")
  | none => .error ("validation error: field " ++ k ++ " required")

/-- Modelled from the spec (§3; `schemas.py` is absent from `src/`): MenuItem —
title, description, category, tags (sequence of string), image_url, all
required. -/
structure MenuItem where
  title : String
  description : String
  category : String
  tags : List String
  image_url : String
deriving DecidableEq

/-- The declared field names, `MenuItem.model_fields`. -/
def MenuItem.model_fields : List String :=
  ["title", "description", "category", "tags", "image_url"]

/-- Structural validation `MenuItem(**d)`: construct from a mapping, failing
with a `ValidationError` when a required field is missing or mis-typed;
unrecognized keys are ignored. -/
def MenuItem.ofDoc (d : Doc) : Except String MenuItem := do
  let title ← getStr d "title"
  let description ← getStr d "description"
  let category ← getStr d "category"
  let tags ← getStrList d "tags"
  let image_url ← getStr d "image_url"
  pure ⟨title, description, category, tags, image_url⟩

/-- Modelled from the spec (§3): Testimonial — name, title, quote, all
required strings. -/
structure Testimonial where
  name : String
  title : String
  quote : String
deriving DecidableEq

/-- The declared field names, `Testimonial.model_fields`. -/
def Testimonial.model_fields : List String :=
  ["name", "title", "quote"]

/-- Structural validation `Testimonial(**d)`. -/
def Testimonial.ofDoc (d : Doc) : Except String Testimonial := do
  let name ← getStr d "name"
  let title ← getStr d "title"
  let quote ← getStr d "quote"
  pure ⟨name, title, quote⟩

/-- Modelled from the spec (§3): GalleryImage — url, alt, required strings. -/
structure GalleryImage where
  url : String
  alt : String
deriving DecidableEq

/-- The declared field names, `GalleryImage.model_fields`. -/
def GalleryImage.model_fields : List String :=
  ["url", "alt"]

/-- Structural validation `GalleryImage(**d)`. -/
def GalleryImage.ofDoc (d : Doc) : Except String GalleryImage := do
  let url ← getStr d "url"
  let alt ← getStr d "alt"
  pure ⟨url, alt⟩

/-- Modelled from the spec (§3: "fields for submitter name/contact/message;
exact field set is implementation-defined"): ContactInquiry with required
string fields name, contact, message. -/
structure ContactInquiry where
  name : String
  contact : String
  message : String
deriving DecidableEq

/-- The declared field names, `ContactInquiry.model_fields`. -/
def ContactInquiry.model_fields : List String :=
  ["name", "contact", "message"]

/-- Structural validation `ContactInquiry(**d)` (FastAPI body validation). -/
def ContactInquiry.ofDoc (d : Doc) : Except String ContactInquiry := do
  let name ← getStr d "name"
  let contact ← getStr d "contact"
  let message ← getStr d "message"
  pure ⟨name, contact, message⟩

/-- The document persisted for a validated ContactInquiry payload. -/
def ContactInquiry.toDoc (p : ContactInquiry) : Doc :=
  [("name", Value.str p.name), ("contact", Value.str p.contact),
   ("message", Value.str p.message)]

/-- The dict comprehension of `main.py` lines 97/102/107:
`\x7bk: v for k, v in d.items() if k in Model.model_fields\x7d`. -/
def filterFields (fields : List String) (d : Doc) : Doc :=
  List.filter (fun kv => fields.contains kv.1) d

/-- Outcome of one HTTP handler invocation: a 200 body, a raised
`HTTPException(status, detail)`, or an exception that escaped the handler
uncaught (FastAPI then answers 500 with a generic body, without the message). -/
inductive HResp (α : Type) where
  | ok : α → HResp α
  | httpError : Nat → String → HResp α
  | unhandled : String → HResp α
deriving DecidableEq

/-- An exception live inside a `try` block of `main.py`: either an
`HTTPException` or a plain storage exception. -/
inductive Exc where
  | http : Nat → String → Exc
  | plain : String → Exc
deriving DecidableEq

/-- Python `str(e)`: Starlette's `HTTPException.__str__` prints
`"\x7bstatus_code\x7d: \x7bdetail\x7d"`; a plain exception prints its message. -/
def Exc.toStr : Exc → String
  | .http status detail => toString status ++ ": " ++ detail
  | .plain msg => msg

/-- The Python list comprehension over fallible element construction: the
first exception aborts the whole list. -/
def mapE {α : Type} (f : Doc → Except String α) : List Doc → Except String (List α)
  | [] => .ok []
  | d :: ds =>
    match f d with
    | .error m => .error m
    | .ok x =>
      match mapE f ds with
      | .error m => .error m
      | .ok xs => .ok (x :: xs)

/-- The three hardcoded MenuItem seed documents (`main.py` lines 42-64). -/
def seedMenuDefaults : List Doc :=
  [[("title", Value.str "Black Truffle Arancini"),
    ("description", Value.str "Crisp risotto pearls with aged Parmesan and shaved truffle."),
    ("category", Value.str "Canapés"),
    ("tags", Value.strList ["vegetarian", "signature"]),
    ("image_url", Value.str "https://images.unsplash.com/photo-1544025162-d76694265947?q=80&w=1600&auto=format&fit=crop")],
   [("title", Value.str "Butter-Poached Lobster"),
    ("description", Value.str "Champagne velouté, fennel pollen, and gold leaf."),
    ("category", Value.str "Mains"),
    ("tags", Value.strList ["seafood"]),
    ("image_url", Value.str "https://images.unsplash.com/photo-1546069901-ba9599a7e63c?q=80&w=1600&auto=format&fit=crop")],
   [("title", Value.str "Valrhona Chocolate Tart"),
    ("description", Value.str "Sea salt ganache, vanilla crème, cacao nib praline."),
    ("category", Value.str "Desserts"),
    ("tags", Value.strList ["dessert"]),
    ("image_url", Value.str "https://images.unsplash.com/photo-1551024709-8f23befc6cf7?q=80&w=1600&auto=format&fit=crop")]]

/-- The three hardcoded Testimonial seed documents (`main.py` lines 69-73). -/
def seedTestimonialDefaults : List Doc :=
  [[("name", Value.str "Amelia R."),
    ("title", Value.str "Luxury Wedding, Lake Como"),
    ("quote", Value.str "Impeccable from first tasting to the final toast. A flawless experience.")],
   [("name", Value.str "Marcus L."),
    ("title", Value.str "Global Summit Gala"),
    ("quote", Value.str "World-class service that impressed every executive in the room.")],
   [("name", Value.str "Sofia N."),
    ("title", Value.str "Private Chef’s Table"),
    ("quote", Value.str "Each course arrived like art. Understated, elegant, unforgettable.")]]

/-- The six hardcoded GalleryImage seed documents (`main.py` lines 77-84). -/
def seedGalleryDefaults : List Doc :=
  [[("url", Value.str "https://images.unsplash.com/photo-1504754524776-8f4f37790ca0?q=80&w=1600&auto=format&fit=crop"),
    ("alt", Value.str "Caviar canapés")],
   [("url", Value.str "https://images.unsplash.com/photo-1517248135467-4c7edcad34c4?q=80&w=1600&auto=format&fit=crop"),
    ("alt", Value.str "Fine dining table")],
   [("url", Value.str "https://images.unsplash.com/photo-1542826438-5ec323d1cb97?q=80&w=1600&auto=format&fit=crop"),
    ("alt", Value.str "Elegant dessert")],
   [("url", Value.str "https://images.unsplash.com/photo-1529042410759-befb1204b468?q=80&w=1600&auto=format&fit=crop"),
    ("alt", Value.str "Champagne service")],
   [("url", Value.str "https://images.unsplash.com/photo-1541870730196-cd1efcbf5646?q=80&w=1600&auto=format&fit=crop"),
    ("alt", Value.str "Gourmet plating")],
   [("url", Value.str "https://images.unsplash.com/photo-1516683037151-9d56a6a58c89?q=80&w=1600&auto=format&fit=crop"),
    ("alt", Value.str "Chef in action")]]

/-- The insertion loop `for item in defaults: create_document(c, item)` — left-to-right inserts,
aborting on the first storage failure. -/
def insertAll (c : String) (docs : List Doc) (env : Env) : Except String Env :=
  match docs with
  | [] => .ok env
  | doc :: rest =>
    match create_document env c doc with
    | .error m => .error m
    | .ok env2 => insertAll c rest env2

/-- One `if db[c].count_documents(\x7b\x7d) == 0: insert defaults` block of
`seed_content`. -/
def seedStep (c : String) (docs : List Doc) (env : Env) : Except String Env :=
  match env.db with
  | none => .error "Database not available"
  | some d =>
    match count_documents d c with
    | .error m => .error m
    | .ok n => if n == 0 then insertAll c docs env else .ok env

/-- The body of `seed_content`'s `try` block (`main.py` lines 37-88): the
`db is None` guard raising `HTTPException(500, "Database not configured")`,
then the three conditional seeding blocks. -/
def seed_body (env : Env) : Except Exc Env :=
  if env.db.isNone then .error (Exc.http 500 "Database not configured")
  else
    match seedStep "menuitem" seedMenuDefaults env with
    | .error m => .error (Exc.plain m)
    | .ok env1 =>
      match seedStep "testimonial" seedTestimonialDefaults env1 with
      | .error m => .error (Exc.plain m)
      | .ok env2 =>
        match seedStep "galleryimage" seedGalleryDefaults env2 with
        | .error m => .error (Exc.plain m)
        | .ok env3 => .ok env3

/-- Handler for `POST /seed` (`main.py` lines 34-90): on success `\x7b"status": "ok"\x7d`;
any exception of the body — the inner `HTTPException` included, since
`except Exception` catches it — is re-raised as
`HTTPException(500, detail=str(e))`. -/
def seed_content (env : Env) : HResp String × Env :=
  match seed_body env with
  | .ok env2 => (.ok "ok", env2)
  | .error e => (.httpError 500 e.toStr, env)

/-- Handler for `GET /menu` (`main.py` lines 93-97): no `try` block — a storage or
validation exception escapes the handler uncaught. -/
def get_menu (env : Env) : HResp (List MenuItem) :=
  match get_documents env "menuitem" with
  | .error m => .unhandled m
  | .ok docs =>
    match mapE (fun d => MenuItem.ofDoc (filterFields MenuItem.model_fields d)) docs with
    | .error m => .unhandled m
    | .ok items => .ok items

/-- Handler for `GET /testimonials` (`main.py` lines 99-102): same shape as `/menu`. -/
def get_testimonials (env : Env) : HResp (List Testimonial) :=
  match get_documents env "testimonial" with
  | .error m => .unhandled m
  | .ok docs =>
    match mapE (fun d => Testimonial.ofDoc (filterFields Testimonial.model_fields d)) docs with
    | .error m => .unhandled m
    | .ok items => .ok items

/-- Handler for `GET /gallery` (`main.py` lines 104-107): same shape as `/menu`. -/
def get_gallery (env : Env) : HResp (List GalleryImage) :=
  match get_documents env "galleryimage" with
  | .error m => .unhandled m
  | .ok docs =>
    match mapE (fun d => GalleryImage.ofDoc (filterFields GalleryImage.model_fields d)) docs with
    | .error m => .unhandled m
    | .ok items => .ok items

/-- Handler body for `POST /contact` (`main.py` lines 109-115), entered with an
already-validated payload: persists it, answers `\x7b"status": "received"\x7d`,
and converts any storage failure to `HTTPException(500, str(e))`. -/
def post_contact (env : Env) (payload : ContactInquiry) : HResp String × Env :=
  match create_document env "contactinquiry" payload.toDoc with
  | .ok env2 => (.ok "received", env2)
  | .error m => (.httpError 500 m, env)

/-- The `/contact` route as dispatched by FastAPI: the request body is first
validated against the ContactInquiry schema; a `ValidationError` is answered
with HTTP 422 before the handler ever runs. -/
def contact_route (env : Env) (body : Doc) : HResp String × Env :=
  match ContactInquiry.ofDoc body with
  | .error m => (.httpError 422 m, env)
  | .ok payload => post_contact env payload

/-- A value of the `/test` diagnostic dict: a string, `None`, or a list of
collection names. -/
inductive RVal where
  | s : String → RVal
  | null : RVal
  | list : List String → RVal
deriving DecidableEq

/-- The `/test` response dict, in insertion order. -/
abbrev TestResp : Type := List (String × RVal)

/-- Assignment `response[k] = v` on a dict whose key set is fixed: replace in place. -/
def setk (r : TestResp) (k : String) (v : RVal) : TestResp :=
  r.map (fun kv => if kv.1 = k then (k, v) else kv)

/-- Python truthiness of `os.getenv(...)`: set and non-empty. -/
def envTruthy : Option String → Bool
  | none => false
  | some s => !(s == "")

/-- Handler for `GET /test` (`main.py` lines 117-146), translated statement by statement:
the initial six-key dict, the guarded connectivity checks mutating it, and the
final unconditional overwrites of `database_url` and `database_name` from the
environment variables.  Total by construction: no branch raises. -/
def test_database (env : Env) : TestResp :=
  let r : TestResp :=
    [("backend", RVal.s "✅ Running"),
     ("database", RVal.s "❌ Not Available"),
     ("database_url", RVal.null),
     ("database_name", RVal.null),
     ("connection_status", RVal.s "Not Connected"),
     ("collections", RVal.list [])]
  let r :=
    match env.db with
    | some d =>
      let r := setk r "database" (RVal.s "✅ Available")
      let r := setk r "database_url" (RVal.s "✅ Configured")
      let r := setk r "database_name" (RVal.s d.name)
      let r := setk r "connection_status" (RVal.s "Connected")
      match list_collection_names d with
      | .ok collections =>
        let r := setk r "collections" (RVal.list (collections.take 10))
        setk r "database" (RVal.s "✅ Connected & Working")
      | .error e =>
        setk r "database" (RVal.s ("⚠️  Connected but Error: " ++ e.take 50))
    | none => setk r "database" (RVal.s "⚠️  Available but not initialized")
  let r := setk r "database_url"
    (RVal.s (if envTruthy env.envDatabaseUrl then "✅ Set" else "❌ Not Set"))
  setk r "database_name"
    (RVal.s (if envTruthy env.envDatabaseName then "✅ Set" else "❌ Not Set"))

/-- The documents of a collection as visible in a process state (empty when
storage is unconfigured). -/
def collOf (env : Env) (c : String) : List Doc :=
  match env.db with
  | some d => d.colls c
  | none => []

/-- Whether a fallible computation succeeded. -/
def exOk {α : Type} : Except String α → Bool
  | .ok _ => true
  | .error _ => false

/-- The documents a run of inserts leaves in a collection: each record stamped
with consecutive store-assigned identifiers starting at `n`. -/
def attachIds : Nat → List Doc → List Doc
  | _, [] => []
  | n, doc :: rest => (doc ++ [("_id", Value.vid n)]) :: attachIds (n + 1) rest

/-- Field access `response[k]` on the `/test` response dict. -/
def respField : TestResp → String → Option RVal
  | [], _ => none
  | (k2, v) :: r, k => if k2 = k then some v else respField r k

/-- A healthy, fully empty store named `cateringdb`, with both environment
variables set: the bootstrap state of a configured deployment. -/
def demoDB : DB :=
  { name := "cateringdb", colls := fun _ => [], collNames := [],
    nextId := 0, healthy := true, failMsg := "" }

/-- The process state over `demoDB`. -/
def demoEnv : Env :=
  { db := some demoDB, envDatabaseUrl := some "mongodb://localhost:27017",
    envDatabaseName := some "cateringdb" }

/-- The same handle with the connection down: every storage operation raises
"connection refused". -/
def downDB : DB :=
  { demoDB with healthy := false, failMsg := "connection refused" }

/-- The process state over `downDB`. -/
def downEnv : Env :=
  { demoEnv with db := some downDB }

/-- The process state of a deployment whose storage was never configured
(`db is None`, no environment variables). -/
def noneEnv : Env :=
  { db := none, envDatabaseUrl := none, envDatabaseName := none }

/-- A well-formed contact payload used for concrete runs. -/
def demoInquiry : ContactInquiry :=
  { name := "Ada", contact := "ada@example.com", message := "Tasting menu for 12?" }

/-- A store whose `menuitem` collection holds one document that is missing
every required field except `title`. -/
def badDocDB : DB :=
  { demoDB with
    colls := fun c => if c = "menuitem" then [[("title", Value.str "only a title")]] else [] }

/-- The process state over `badDocDB`. -/
def badDocEnv : Env :=
  { demoEnv with db := some badDocDB }

/-- A store whose `menuitem` collection holds one well-formed document. -/
def oneItemDB : DB :=
  { demoDB with
    colls := fun c =>
      if c = "menuitem" then
        [[("title", Value.str "Oysters"), ("description", Value.str "Fresh"),
          ("category", Value.str "Canapés"), ("tags", Value.strList ["seafood"]),
          ("image_url", Value.str "https://example.com/oysters.jpg")]]
      else [] }

/-- The process state over `oneItemDB`. -/
def oneItemEnv : Env :=
  { demoEnv with db := some oneItemDB }

/-- The typed records the three seeded MenuItem documents validate to. -/
def seedMenuItems : List MenuItem :=
  [⟨"Black Truffle Arancini",
    "Crisp risotto pearls with aged Parmesan and shaved truffle.",
    "Canapés", ["vegetarian", "signature"],
    "https://images.unsplash.com/photo-1544025162-d76694265947?q=80&w=1600&auto=format&fit=crop"⟩,
   ⟨"Butter-Poached Lobster",
    "Champagne velouté, fennel pollen, and gold leaf.",
    "Mains", ["seafood"],
    "https://images.unsplash.com/photo-1546069901-ba9599a7e63c?q=80&w=1600&auto=format&fit=crop"⟩,
   ⟨"Valrhona Chocolate Tart",
    "Sea salt ganache, vanilla crème, cacao nib praline.",
    "Desserts", ["dessert"],
    "https://images.unsplash.com/photo-1551024709-8f23befc6cf7?q=80&w=1600&auto=format&fit=crop"⟩]

/-- The typed records the six seeded GalleryImage documents validate to. -/
def seedGalleryItems : List GalleryImage :=
  [⟨"https://images.unsplash.com/photo-1504754524776-8f4f37790ca0?q=80&w=1600&auto=format&fit=crop", "Caviar canapés"⟩,
   ⟨"https://images.unsplash.com/photo-1517248135467-4c7edcad34c4?q=80&w=1600&auto=format&fit=crop", "Fine dining table"⟩,
   ⟨"https://images.unsplash.com/photo-1542826438-5ec323d1cb97?q=80&w=1600&auto=format&fit=crop", "Elegant dessert"⟩,
   ⟨"https://images.unsplash.com/photo-1529042410759-befb1204b468?q=80&w=1600&auto=format&fit=crop", "Champagne service"⟩,
   ⟨"https://images.unsplash.com/photo-1541870730196-cd1efcbf5646?q=80&w=1600&auto=format&fit=crop", "Gourmet plating"⟩,
   ⟨"https://images.unsplash.com/photo-1516683037151-9d56a6a58c89?q=80&w=1600&auto=format&fit=crop", "Chef in action"⟩]

/-- A contact request body missing the required `message` field. -/
def incompleteBody : Doc :=
  [("name", Value.str "Ada"), ("contact", Value.str "ada@example.com")]

/-- A well-formed MenuItem document (the five declared fields). -/
def oysterDoc : Doc :=
  [("title", Value.str "Oysters"), ("description", Value.str "Fresh"),
   ("category", Value.str "Canapés"), ("tags", Value.strList ["seafood"]),
   ("image_url", Value.str "https://example.com/oysters.jpg")]

/-- Unrecognized keys: a stray field and a store-assigned identifier. -/
def junkPart : Doc :=
  [("junk", Value.str "unrecognized"), ("_id", Value.vid 7)]

/-- A second well-formed MenuItem document. -/
def trufflesDoc : Doc :=
  [("title", Value.str "Truffles"), ("description", Value.str "Dark chocolate"),
   ("category", Value.str "Desserts"), ("tags", Value.strList []),
   ("image_url", Value.str "https://example.com/truffles.jpg")]

/-- A store-assigned identifier alone, as stamped by the store. -/
def idJunk : Doc :=
  [("_id", Value.vid 8)]

/-- A store whose `menuitem` collection holds two documents, each carrying
unrecognized fields: `oysterDoc` with the stray field and identifier of
`junkPart`, and `trufflesDoc` with the identifier `idJunk`. -/
def twoItemDB : DB :=
  { demoDB with
    colls := fun c =>
      if c = "menuitem" then [oysterDoc ++ junkPart, trufflesDoc ++ idJunk] else [] }

/-- The process state over `twoItemDB`. -/
def twoItemEnv : Env :=
  { demoEnv with db := some twoItemDB }

/-- The typed record `oysterDoc` validates to. -/
def oysterItem : MenuItem :=
  ⟨"Oysters", "Fresh", "Canapés", ["seafood"], "https://example.com/oysters.jpg"⟩

/-- The typed record `trufflesDoc` validates to. -/
def trufflesItem : MenuItem :=
  ⟨"Truffles", "Dark chocolate", "Desserts", [], "https://example.com/truffles.jpg"⟩

/-- Replacing the handle of a state by the handle it already holds is the
identity. -/
theorem Env.set_db_eq (env : Env) (d : DB) (h : env.db = some d) :
    ({ env with db := some d } : Env) = env := by
  cases env
  cases h
  rfl

/-- Inserting into a collection appends the stamped record there. -/
theorem DB.insert_colls_self (d : DB) (c : String) (doc : Doc) :
    (d.insert c doc).colls c = d.colls c ++ [doc ++ [("_id", Value.vid d.nextId)]] := by
  simp [DB.insert]

/-- Inserting into a collection leaves every other collection unchanged. -/
theorem DB.insert_colls_ne (d : DB) (c c2 : String) (doc : Doc) (h : c2 ≠ c) :
    (d.insert c doc).colls c2 = d.colls c2 := by
  simp [DB.insert, h]

/-- The length of a stamped insert run. -/
theorem attachIds_length (n : Nat) (docs : List Doc) :
    (attachIds n docs).length = docs.length := by
  induction docs generalizing n with
  | nil => rfl
  | cons doc rest ih => simp [attachIds, ih]

/-- Structure of a successful insert run over a healthy handle: it succeeds,
keeps the handle healthy, appends the stamped records to the target
collection, and leaves every other collection unchanged. -/
theorem insertAll_spec (c : String) (docs : List Doc) :
    ∀ (env : Env) (d : DB), env.db = some d → d.healthy = true →
    ∃ d2 : DB, insertAll c docs env = .ok { env with db := some d2 } ∧
      d2.healthy = true ∧ d2.name = d.name ∧ d2.failMsg = d.failMsg ∧
      d2.nextId = d.nextId + docs.length ∧
      d2.colls c = d.colls c ++ attachIds d.nextId docs ∧
      ∀ c2, c2 ≠ c → d2.colls c2 = d.colls c2 := by
  induction docs with
  | nil =>
    intro env d hdb hh
    refine ⟨d, ?_, hh, rfl, rfl, rfl, by simp [attachIds], fun c2 _ => rfl⟩
    simp [insertAll, Env.set_db_eq env d hdb]
  | cons doc rest ih =>
    intro env d hdb hh
    have hcreate : create_document env c doc = .ok { env with db := some (d.insert c doc) } := by
      simp [create_document, hdb, hh]
    have hdb2 : ({ env with db := some (d.insert c doc) } : Env).db = some (d.insert c doc) := rfl
    have hh2 : (d.insert c doc).healthy = true := hh
    obtain ⟨d2, hrun, h2h, h2n, h2f, h2id, h2c, h2ne⟩ :=
      ih { env with db := some (d.insert c doc) } (d.insert c doc) hdb2 hh2
    refine ⟨d2, ?_, h2h, h2n, h2f, ?_, ?_, ?_⟩
    · simpa [insertAll, hcreate] using hrun
    · have hstep : (d.insert c doc).nextId = d.nextId + 1 := rfl
      rw [h2id, hstep]
      simp [List.length_cons]
      omega
    · have hstep : (d.insert c doc).nextId = d.nextId + 1 := rfl
      rw [h2c, DB.insert_colls_self, hstep]
      rw [List.append_assoc]
      rfl
    · intro c2 hne
      rw [h2ne c2 hne, DB.insert_colls_ne d c c2 doc hne]

/-- An insert run touches only its target collection. -/
theorem insertAll_preserves (c : String) (docs : List Doc) :
    ∀ (env env2 : Env), insertAll c docs env = .ok env2 →
    ∀ c2, c2 ≠ c → collOf env2 c2 = collOf env c2 := by
  induction docs with
  | nil =>
    intro env env2 h c2 _
    simp [insertAll] at h
    rw [h]
  | cons doc rest ih =>
    intro env env2 h c2 hne
    simp only [insertAll] at h
    split at h
    · cases h
    · rename_i env1 hc
      have h1 : collOf env1 c2 = collOf env c2 := by
        simp only [create_document] at hc
        split at hc
        · cases hc
        · rename_i d hdb
          split at hc
          · rename_i hh
            injection hc with hcEq
            subst hcEq
            simp [collOf, hdb, DB.insert_colls_ne d c c2 doc hne]
          · cases hc
      rw [ih env1 env2 h c2 hne, h1]

/-- A seeding block leaves a collection unchanged when the collection is not
its target, or was already non-empty (so the block was skipped). -/
theorem seedStep_preserves (c : String) (docs : List Doc) (env env2 : Env)
    (h : seedStep c docs env = .ok env2) (c2 : String)
    (hside : c2 ≠ c ∨ collOf env c2 ≠ []) :
    collOf env2 c2 = collOf env c2 := by
  simp only [seedStep] at h
  split at h
  · cases h
  · rename_i d hdb
    split at h
    · cases h
    · rename_i n hcnt
      split at h
      · rename_i hn
        by_cases hc2 : c2 = c
        · subst hc2
          rcases hside with hne | hfull
          · exact absurd rfl hne
          · exfalso
            simp only [count_documents] at hcnt
            split at hcnt
            · injection hcnt with hcntEq
              simp at hn
              rw [hn] at hcntEq
              exact hfull (by simpa [collOf, hdb] using
                List.eq_nil_of_length_eq_zero hcntEq)
            · cases hcnt
        · exact insertAll_preserves c docs env env2 h c2 hc2
      · cases h
        rfl

/-- One invocation of the seeding endpoint leaves every already non-empty
collection exactly as it was. -/
theorem seed_content_preserves (env : Env) (c : String) (h : collOf env c ≠ []) :
    collOf ((seed_content env).2) c = collOf env c := by
  unfold seed_content
  cases hb : seed_body env with
  | error e => rfl
  | ok env3 =>
    simp only
    simp only [seed_body] at hb
    split at hb
    · cases hb
    · split at hb
      · cases hb
      · rename_i env1 hs1
        split at hb
        · cases hb
        · rename_i env2 hs2
          split at hb
          · cases hb
          · rename_i env3b hs3
            injection hb with hbEq
            subst hbEq
            have p1 := seedStep_preserves _ _ env env1 hs1 c (Or.inr h)
            have h1 : collOf env1 c ≠ [] := by rw [p1]; exact h
            have p2 := seedStep_preserves _ _ env1 env2 hs2 c (Or.inr h1)
            have h2 : collOf env2 c ≠ [] := by rw [p2]; exact h1
            have p3 := seedStep_preserves _ _ env2 env3b hs3 c (Or.inr h2)
            rw [p3, p2, p1]

/-- Structure of a successful seed over a healthy store whose three seeded
collections are empty: it answers ok and populates exactly the three
collections with the stamped default records. -/
theorem seed_from_empty (env : Env) (d : DB) (hdb : env.db = some d)
    (hh : d.healthy = true)
    (hm : d.colls "menuitem" = []) (ht : d.colls "testimonial" = [])
    (hg : d.colls "galleryimage" = []) :
    ∃ d3 : DB, seed_content env = (.ok "ok", { env with db := some d3 }) ∧
      d3.healthy = true ∧
      d3.colls "menuitem" = attachIds d.nextId seedMenuDefaults ∧
      (∃ n1, d3.colls "testimonial" = attachIds n1 seedTestimonialDefaults) ∧
      (∃ n2, d3.colls "galleryimage" = attachIds n2 seedGalleryDefaults) ∧
      (∀ c, c ≠ "menuitem" → c ≠ "testimonial" → c ≠ "galleryimage" →
        d3.colls c = d.colls c) := by
  obtain ⟨d1, i1run, i1h, _, _, _, i1self, i1ne⟩ :=
    insertAll_spec "menuitem" seedMenuDefaults env d hdb hh
  have s1 : seedStep "menuitem" seedMenuDefaults env = .ok { env with db := some d1 } := by
    simp only [seedStep, hdb, count_documents, hh, if_true, hm, List.length_nil]
    simpa using i1run
  have hdb1 : ({ env with db := some d1 } : Env).db = some d1 := rfl
  have ht1 : d1.colls "testimonial" = [] := by
    rw [i1ne "testimonial" (by decide), ht]
  have hg1 : d1.colls "galleryimage" = [] := by
    rw [i1ne "galleryimage" (by decide), hg]
  obtain ⟨d2, i2run, i2h, _, _, _, i2self, i2ne⟩ :=
    insertAll_spec "testimonial" seedTestimonialDefaults { env with db := some d1 } d1 hdb1 i1h
  have s2 : seedStep "testimonial" seedTestimonialDefaults { env with db := some d1 }
      = .ok { env with db := some d2 } := by
    simp only [seedStep, hdb1, count_documents, i1h, if_true, ht1, List.length_nil]
    simpa using i2run
  have hdb2 : ({ env with db := some d2 } : Env).db = some d2 := rfl
  have hg2 : d2.colls "galleryimage" = [] := by
    rw [i2ne "galleryimage" (by decide), hg1]
  obtain ⟨d3, i3run, i3h, _, _, _, i3self, i3ne⟩ :=
    insertAll_spec "galleryimage" seedGalleryDefaults { env with db := some d2 } d2 hdb2 i2h
  have s3 : seedStep "galleryimage" seedGalleryDefaults { env with db := some d2 }
      = .ok { env with db := some d3 } := by
    simp only [seedStep, hdb2, count_documents, i2h, if_true, hg2, List.length_nil]
    simpa using i3run
  have hb : seed_body env = .ok { env with db := some d3 } := by
    simp only [seed_body, hdb, Option.isNone_some, Bool.false_eq_true, if_false, s1, s2, s3]
  refine ⟨d3, ?_, i3h, ?_, ⟨d1.nextId, ?_⟩, ⟨d2.nextId, ?_⟩, ?_⟩
  · simp [seed_content, hb]
  · rw [i3ne "menuitem" (by decide), i2ne "menuitem" (by decide), i1self, hm,
      List.nil_append]
  · rw [i3ne "testimonial" (by decide), i2self, ht1, List.nil_append]
  · rw [i3self, hg2, List.nil_append]
  · intro c hcm hct hcg
    rw [i3ne c hcg, i2ne c hct, i1ne c hcm]

/-- The schema filter distributes over concatenation of mappings. -/
theorem filterFields_append (fields : List String) (d1 d2 : Doc) :
    filterFields fields (d1 ++ d2) = filterFields fields d1 ++ filterFields fields d2 := by
  simp [filterFields, List.filter_append]

/-- The schema filter erases a mapping all of whose keys are unrecognized. -/
theorem filterFields_none (fields : List String) (d : Doc)
    (h : ∀ kv ∈ d, fields.contains kv.1 = false) :
    filterFields fields d = [] := by
  induction d with
  | nil => rfl
  | cons kv rest ih =>
    simp only [filterFields, List.filter_cons]
    rw [h kv (by simp)]
    simp only [Bool.false_eq_true, if_false]
    exact ih (fun kv2 h2 => h kv2 (by simp [h2]))

/-- A validator that ignores the store-assigned identifier behaves the same on
the stamped and the raw insert run. -/
theorem mapE_attachIds {α : Type} (f : Doc → Except String α)
    (hf : ∀ doc n, f (doc ++ [("_id", Value.vid n)]) = f doc) :
    ∀ (n : Nat) (docs : List Doc), mapE f (attachIds n docs) = mapE f docs := by
  intro n docs
  induction docs generalizing n with
  | nil => rfl
  | cons doc rest ih => simp only [attachIds, mapE, hf, ih]

/-- A successful fallible comprehension returns one element per document. -/
theorem mapE_ok_length {α : Type} (f : Doc → Except String α) :
    ∀ (docs : List Doc) (xs : List α), mapE f docs = .ok xs → xs.length = docs.length := by
  intro docs
  induction docs with
  | nil =>
    intro xs h
    simp only [mapE] at h
    injection h with hEq
    rw [← hEq]
    rfl
  | cons doc rest ih =>
    intro xs h
    simp only [mapE] at h
    split at h
    · cases h
    · split at h
      · cases h
      · rename_i x _ ys hrest
        injection h with hEq
        rw [← hEq]
        simp [ih ys hrest]

/-- One failing document aborts the whole fallible comprehension. -/
theorem mapE_error_of_mem {α : Type} (f : Doc → Except String α) :
    ∀ (docs : List Doc) (doc : Doc), doc ∈ docs → exOk (f doc) = false →
    ∃ m, mapE f docs = .error m := by
  intro docs
  induction docs with
  | nil => intro doc h; cases h
  | cons first rest ih =>
    intro doc hmem hbad
    rcases List.mem_cons.mp hmem with heq | htail
    · subst heq
      cases hf : f doc with
      | error m => exact ⟨m, by simp [mapE, hf]⟩
      | ok x => rw [hf] at hbad; cases hbad
    · cases hf : f first with
      | error m => exact ⟨m, by simp [mapE, hf]⟩
      | ok x =>
        obtain ⟨m, hm⟩ := ih doc htail hbad
        exact ⟨m, by simp [mapE, hf, hm]⟩

/-- A successful fallible comprehension certifies every document. -/
theorem mapE_ok_all {α : Type} (f : Doc → Except String α) :
    ∀ (docs : List Doc) (xs : List α), mapE f docs = .ok xs →
    ∀ doc ∈ docs, exOk (f doc) = true := by
  intro docs
  induction docs with
  | nil => intro xs _ doc h; cases h
  | cons first rest ih =>
    intro xs h doc hmem
    simp only [mapE] at h
    split at h
    · cases h
    · rename_i x hf
      split at h
      · cases h
      · rename_i ys hrest
        rcases List.mem_cons.mp hmem with heq | htail
        · subst heq; simp [exOk, hf]
        · exact ih ys hrest doc htail

/-- The MenuItem validator never reads the store-assigned identifier. -/
theorem menu_validator_ignores_id (doc : Doc) (n : Nat) :
    MenuItem.ofDoc (filterFields MenuItem.model_fields (doc ++ [("_id", Value.vid n)]))
      = MenuItem.ofDoc (filterFields MenuItem.model_fields doc) := by
  rw [filterFields_append,
    filterFields_none MenuItem.model_fields [("_id", Value.vid n)]
      (by
        intro kv hkv
        simp at hkv
        subst hkv
        show MenuItem.model_fields.contains "_id" = false
        decide),
    List.append_nil]

/-- The Testimonial validator never reads the store-assigned identifier. -/
theorem testimonial_validator_ignores_id (doc : Doc) (n : Nat) :
    Testimonial.ofDoc (filterFields Testimonial.model_fields (doc ++ [("_id", Value.vid n)]))
      = Testimonial.ofDoc (filterFields Testimonial.model_fields doc) := by
  rw [filterFields_append,
    filterFields_none Testimonial.model_fields [("_id", Value.vid n)]
      (by
        intro kv hkv
        simp at hkv
        subst hkv
        show Testimonial.model_fields.contains "_id" = false
        decide),
    List.append_nil]

/-- The GalleryImage validator never reads the store-assigned identifier. -/
theorem gallery_validator_ignores_id (doc : Doc) (n : Nat) :
    GalleryImage.ofDoc (filterFields GalleryImage.model_fields (doc ++ [("_id", Value.vid n)]))
      = GalleryImage.ofDoc (filterFields GalleryImage.model_fields doc) := by
  rw [filterFields_append,
    filterFields_none GalleryImage.model_fields [("_id", Value.vid n)]
      (by
        intro kv hkv
        simp at hkv
        subst hkv
        show GalleryImage.model_fields.contains "_id" = false
        decide),
    List.append_nil]

/-- The seeded MenuItem documents validate to `seedMenuItems`. -/
theorem mapE_menu_defaults :
    mapE (fun doc => MenuItem.ofDoc (filterFields MenuItem.model_fields doc))
      seedMenuDefaults = .ok seedMenuItems := by
  rfl

/-- The seeded GalleryImage documents validate to `seedGalleryItems`. -/
theorem mapE_gallery_defaults :
    mapE (fun doc => GalleryImage.ofDoc (filterFields GalleryImage.model_fields doc))
      seedGalleryDefaults = .ok seedGalleryItems := by
  rfl

/-- Reading `/menu` over a healthy handle reduces to validating the stored
documents. -/
theorem get_menu_ok (env : Env) (d : DB) (hdb : env.db = some d)
    (hh : d.healthy = true) (items : List MenuItem)
    (h : mapE (fun doc => MenuItem.ofDoc (filterFields MenuItem.model_fields doc))
      (d.colls "menuitem") = .ok items) :
    get_menu env = .ok items := by
  simp [get_menu, get_documents, hdb, hh, h]

/-- A validation failure in `/menu` escapes the handler uncaught. -/
theorem get_menu_err (env : Env) (d : DB) (hdb : env.db = some d)
    (hh : d.healthy = true) (m : String)
    (h : mapE (fun doc => MenuItem.ofDoc (filterFields MenuItem.model_fields doc))
      (d.colls "menuitem") = .error m) :
    get_menu env = .unhandled m := by
  simp [get_menu, get_documents, hdb, hh, h]

/-- Reading `/testimonials` over a healthy handle reduces to validating the
stored documents. -/
theorem get_testimonials_ok (env : Env) (d : DB) (hdb : env.db = some d)
    (hh : d.healthy = true) (items : List Testimonial)
    (h : mapE (fun doc => Testimonial.ofDoc (filterFields Testimonial.model_fields doc))
      (d.colls "testimonial") = .ok items) :
    get_testimonials env = .ok items := by
  simp [get_testimonials, get_documents, hdb, hh, h]

/-- A validation failure in `/testimonials` escapes the handler uncaught. -/
theorem get_testimonials_err (env : Env) (d : DB) (hdb : env.db = some d)
    (hh : d.healthy = true) (m : String)
    (h : mapE (fun doc => Testimonial.ofDoc (filterFields Testimonial.model_fields doc))
      (d.colls "testimonial") = .error m) :
    get_testimonials env = .unhandled m := by
  simp [get_testimonials, get_documents, hdb, hh, h]

/-- Reading `/gallery` over a healthy handle reduces to validating the stored
documents. -/
theorem get_gallery_ok (env : Env) (d : DB) (hdb : env.db = some d)
    (hh : d.healthy = true) (items : List GalleryImage)
    (h : mapE (fun doc => GalleryImage.ofDoc (filterFields GalleryImage.model_fields doc))
      (d.colls "galleryimage") = .ok items) :
    get_gallery env = .ok items := by
  simp [get_gallery, get_documents, hdb, hh, h]

/-- A validation failure in `/gallery` escapes the handler uncaught. -/
theorem get_gallery_err (env : Env) (d : DB) (hdb : env.db = some d)
    (hh : d.healthy = true) (m : String)
    (h : mapE (fun doc => GalleryImage.ofDoc (filterFields GalleryImage.model_fields doc))
      (d.colls "galleryimage") = .error m) :
    get_gallery env = .unhandled m := by
  simp [get_gallery, get_documents, hdb, hh, h]

/-- C1: Seeding is idempotent.  Starting from a healthy store whose three
seeded collections are empty, invoking `POST /seed` twice in sequence leaves
exactly 3 documents in `menuitem`, 3 in `testimonial` and 6 in `galleryimage`
(not 6/6/12); and for any collection already non-empty, one `/seed` invocation
changes nothing in it. -/
theorem seed_idempotent :
    (∀ (env : Env) (d : DB), env.db = some d → d.healthy = true →
      d.colls "menuitem" = [] → d.colls "testimonial" = [] →
      d.colls "galleryimage" = [] →
      (collOf ((seed_content ((seed_content env).2)).2) "menuitem").length = 3 ∧
      (collOf ((seed_content ((seed_content env).2)).2) "testimonial").length = 3 ∧
      (collOf ((seed_content ((seed_content env).2)).2) "galleryimage").length = 6) ∧
    (∀ (env : Env) (c : String), collOf env c ≠ [] →
      collOf ((seed_content env).2) c = collOf env c) := by
  constructor
  · intro env d hdb hh hm ht hg
    obtain ⟨d3, hseed, h3h, h3m, ⟨n1, h3t⟩, ⟨n2, h3g⟩, _⟩ :=
      seed_from_empty env d hdb hh hm ht hg
    have henv1 : (seed_content env).2 = { env with db := some d3 } := by rw [hseed]
    have cm : collOf ((seed_content env).2) "menuitem"
        = attachIds d.nextId seedMenuDefaults := by
      rw [henv1]
      simpa [collOf] using h3m
    have ct : collOf ((seed_content env).2) "testimonial"
        = attachIds n1 seedTestimonialDefaults := by
      rw [henv1]
      simpa [collOf] using h3t
    have cg : collOf ((seed_content env).2) "galleryimage"
        = attachIds n2 seedGalleryDefaults := by
      rw [henv1]
      simpa [collOf] using h3g
    have hm1 : collOf ((seed_content env).2) "menuitem" ≠ [] := by
      rw [cm]; simp [seedMenuDefaults, attachIds]
    have ht1 : collOf ((seed_content env).2) "testimonial" ≠ [] := by
      rw [ct]; simp [seedTestimonialDefaults, attachIds]
    have hg1 : collOf ((seed_content env).2) "galleryimage" ≠ [] := by
      rw [cg]; simp [seedGalleryDefaults, attachIds]
    refine ⟨?_, ?_, ?_⟩
    · rw [seed_content_preserves _ _ hm1, cm, attachIds_length]; rfl
    · rw [seed_content_preserves _ _ ht1, ct, attachIds_length]; rfl
    · rw [seed_content_preserves _ _ hg1, cg, attachIds_length]; rfl
  · exact fun env c h => seed_content_preserves env c h

/-- Witness for C1 at concrete states: the empty `demoEnv` seeded twice holds
3/3/6 documents, and seeding `oneItemEnv` (non-empty `menuitem`) changes
nothing there. -/
theorem seed_idempotent_witness :
    ((collOf ((seed_content ((seed_content demoEnv).2)).2) "menuitem").length = 3 ∧
     (collOf ((seed_content ((seed_content demoEnv).2)).2) "testimonial").length = 3 ∧
     (collOf ((seed_content ((seed_content demoEnv).2)).2) "galleryimage").length = 6) ∧
    collOf ((seed_content oneItemEnv).2) "menuitem" = collOf oneItemEnv "menuitem" :=
  ⟨seed_idempotent.1 demoEnv demoDB rfl rfl rfl rfl rfl,
   seed_idempotent.2 oneItemEnv "menuitem" (by decide)⟩

/-- C5: Seed-then-read round trip.  After a successful `POST /seed` on a
healthy empty store, `GET /menu` returns exactly the three typed records of
`seedMenuItems` — titles "Black Truffle Arancini" (Canapés,
[vegetarian, signature]), "Butter-Poached Lobster" (Mains, [seafood]),
"Valrhona Chocolate Tart" (Desserts, [dessert]) — and `GET /gallery` returns
exactly the 6 entries of `seedGalleryItems`. -/
theorem seed_then_read_round_trip (env : Env) (d : DB) (hdb : env.db = some d)
    (hh : d.healthy = true)
    (hm : d.colls "menuitem" = []) (ht : d.colls "testimonial" = [])
    (hg : d.colls "galleryimage" = []) :
    get_menu ((seed_content env).2) = .ok seedMenuItems ∧
    get_gallery ((seed_content env).2) = .ok seedGalleryItems ∧
    seedGalleryItems.length = 6 := by
  obtain ⟨d3, hseed, h3h, h3m, ⟨n1, h3t⟩, ⟨n2, h3g⟩, _⟩ :=
    seed_from_empty env d hdb hh hm ht hg
  have henv1 : (seed_content env).2 = { env with db := some d3 } := by rw [hseed]
  rw [henv1]
  refine ⟨?_, ?_, rfl⟩
  · apply get_menu_ok _ d3 rfl h3h
    rw [h3m, mapE_attachIds _ menu_validator_ignores_id, mapE_menu_defaults]
  · apply get_gallery_ok _ d3 rfl h3h
    rw [h3g, mapE_attachIds _ gallery_validator_ignores_id, mapE_gallery_defaults]

/-- Witness for C5 at the concrete empty state `demoEnv`. -/
theorem seed_then_read_round_trip_witness :
    get_menu ((seed_content demoEnv).2) = .ok seedMenuItems ∧
    get_gallery ((seed_content demoEnv).2) = .ok seedGalleryItems ∧
    seedGalleryItems.length = 6 :=
  seed_then_read_round_trip demoEnv demoDB rfl rfl rfl rfl rfl

/-- Counterexample to C2 as stated: with the storage connection down
(`downEnv`), `GET /menu` does not answer an `HTTPException(500)` carrying the
failure message — the storage exception escapes the handler uncaught, because
`get_menu` (unlike `seed_content` and `post_contact`) has no `try`/`except`. -/
theorem read_handlers_do_not_catch :
    get_menu downEnv = .unhandled "connection refused" ∧
    get_menu downEnv ≠ .httpError 500 "connection refused" := by
  constructor
  · rfl
  · decide

/-- C2 (amended): only `seed_content` and `post_contact` catch adapter
failures and convert them to HTTP 500 with the failure message; the three read
handlers `GET /menu`, `GET /testimonials`, `GET /gallery` let the storage
exception propagate out of the handler uncaught. -/
theorem storage_failure_propagation (env : Env) (d : DB) (hdb : env.db = some d)
    (hh : d.healthy = false) :
    get_menu env = .unhandled d.failMsg ∧
    get_testimonials env = .unhandled d.failMsg ∧
    get_gallery env = .unhandled d.failMsg ∧
    (seed_content env).1 = .httpError 500 d.failMsg ∧
    ∀ p : ContactInquiry, (post_contact env p).1 = .httpError 500 d.failMsg := by
  have hget : ∀ c, get_documents env c = .error d.failMsg := by
    intro c
    simp [get_documents, hdb, hh]
  have hbody : seed_body env = .error (Exc.plain d.failMsg) := by
    simp [seed_body, hdb, seedStep, count_documents, hh]
  refine ⟨?_, ?_, ?_, ?_, ?_⟩
  · simp [get_menu, hget]
  · simp [get_testimonials, hget]
  · simp [get_gallery, hget]
  · simp [seed_content, hbody, Exc.toStr]
  · intro p
    simp [post_contact, create_document, hdb, hh]

/-- Witness for C2 (amended) at the concrete down-connection state. -/
theorem storage_failure_propagation_witness :
    get_menu downEnv = .unhandled downDB.failMsg ∧
    get_testimonials downEnv = .unhandled downDB.failMsg ∧
    get_gallery downEnv = .unhandled downDB.failMsg ∧
    (seed_content downEnv).1 = .httpError 500 downDB.failMsg ∧
    (post_contact downEnv demoInquiry).1 = .httpError 500 downDB.failMsg :=
  ⟨(storage_failure_propagation downEnv downDB rfl rfl).1,
   (storage_failure_propagation downEnv downDB rfl rfl).2.1,
   (storage_failure_propagation downEnv downDB rfl rfl).2.2.1,
   (storage_failure_propagation downEnv downDB rfl rfl).2.2.2.1,
   (storage_failure_propagation downEnv downDB rfl rfl).2.2.2.2 demoInquiry⟩

/-- Counterexample to C9 as stated: with storage unconfigured, the `/seed`
response detail is not the bare message "Database not configured" — the inner
`HTTPException` is caught by the blanket `except Exception` and re-raised with
`detail=str(e)`, which stringifies as "500: Database not configured". -/
theorem seed_unconfigured_detail_counterexample :
    (seed_content noneEnv).1 = .httpError 500 "500: Database not configured" ∧
    (seed_content noneEnv).1 ≠ .httpError 500 "Database not configured" := by
  constructor
  · rfl
  · decide

/-- C9 (amended): `POST /seed` with `db is None` fails with HTTP 500 whose
detail is "500: Database not configured": the guard's
`HTTPException(500, "Database not configured")` is caught by the handler's own
`except Exception` clause and re-wrapped with its stringification as detail,
and the state is unchanged. -/
theorem seed_unconfigured_500 (env : Env) (h : env.db = none) :
    seed_content env = (.httpError 500 "500: Database not configured", env) := by
  have hbody : seed_body env = .error (Exc.http 500 "Database not configured") := by
    simp [seed_body, h]
  simp only [seed_content, hbody]
  rfl

/-- Witness for C9 (amended) at the concrete unconfigured state. -/
theorem seed_unconfigured_500_witness :
    seed_content noneEnv = (.httpError 500 "500: Database not configured", noneEnv) :=
  seed_unconfigured_500 noneEnv rfl

/-- C6: `POST /contact` with a validated payload persists it via
`createDocument` into the `contactinquiry` collection (the stored document is
the payload stamped with the store-assigned identifier) and answers ok
"received"; when `createDocument` fails, the handler answers HTTP 500 whose
detail is the failure's textual message. -/
theorem contact_write :
    (∀ (env : Env) (d : DB) (p : ContactInquiry), env.db = some d → d.healthy = true →
      (post_contact env p).1 = .ok "received" ∧
      collOf ((post_contact env p).2) "contactinquiry"
        = collOf env "contactinquiry" ++ [p.toDoc ++ [("_id", Value.vid d.nextId)]]) ∧
    (∀ (env : Env) (d : DB) (p : ContactInquiry), env.db = some d → d.healthy = false →
      post_contact env p = (.httpError 500 d.failMsg, env)) ∧
    (∀ (env : Env) (p : ContactInquiry), env.db = none →
      post_contact env p = (.httpError 500 "Database not available", env)) := by
  refine ⟨?_, ?_, ?_⟩
  · intro env d p hdb hh
    have hc : create_document env "contactinquiry" p.toDoc
        = .ok { env with db := some (d.insert "contactinquiry" p.toDoc) } := by
      simp [create_document, hdb, hh]
    constructor
    · simp [post_contact, hc]
    · simp only [post_contact, hc]
      simp [collOf, hdb, DB.insert_colls_self]
  · intro env d p hdb hh
    simp [post_contact, create_document, hdb, hh]
  · intro env p h
    simp [post_contact, create_document, h]

/-- Witness for C6 at concrete states: a successful write on `demoEnv` and a
failing write on `downEnv`. -/
theorem contact_write_witness :
    (post_contact demoEnv demoInquiry).1 = .ok "received" ∧
    collOf ((post_contact demoEnv demoInquiry).2) "contactinquiry"
      = collOf demoEnv "contactinquiry"
        ++ [demoInquiry.toDoc ++ [("_id", Value.vid demoDB.nextId)]] ∧
    post_contact downEnv demoInquiry = (.httpError 500 "connection refused", downEnv) :=
  ⟨(contact_write.1 demoEnv demoDB demoInquiry rfl rfl).1,
   (contact_write.1 demoEnv demoDB demoInquiry rfl rfl).2,
   contact_write.2.1 downEnv downDB demoInquiry rfl rfl⟩

/-- C4: `POST /contact` with a payload failing ContactInquiry validation is
rejected by FastAPI with HTTP 422 before the handler runs: the response is not
a 500, `createDocument` is never invoked, and every collection is unchanged. -/
theorem contact_validation_rejection :
    (∀ (env : Env) (body : Doc) (m : String), ContactInquiry.ofDoc body = .error m →
      contact_route env body = (.httpError 422 m, env)) ∧
    (∀ (env : Env) (body : Doc) (m : String), ContactInquiry.ofDoc body = .error m →
      ∀ c, collOf ((contact_route env body).2) c = collOf env c) := by
  have h1 : ∀ (env : Env) (body : Doc) (m : String), ContactInquiry.ofDoc body = .error m →
      contact_route env body = (.httpError 422 m, env) := by
    intro env body m h
    simp [contact_route, h]
  exact ⟨h1, fun env body m h c => by rw [h1 env body m h]⟩

/-- Witness for C4 at a concrete malformed body: `incompleteBody` lacks the
required `message` field; the route answers 422 and stores nothing. -/
theorem contact_validation_rejection_witness :
    contact_route demoEnv incompleteBody
      = (.httpError 422 "validation error: field message required", demoEnv) ∧
    collOf ((contact_route demoEnv incompleteBody).2) "contactinquiry"
      = collOf demoEnv "contactinquiry" :=
  ⟨contact_validation_rejection.1 demoEnv incompleteBody
      "validation error: field message required" rfl,
   contact_validation_rejection.2 demoEnv incompleteBody
      "validation error: field message required" rfl "contactinquiry"⟩

/-- Inversion of a successful `/menu` read over a healthy handle. -/
theorem get_menu_ok_inv (env : Env) (d : DB) (hdb : env.db = some d)
    (hh : d.healthy = true) (items : List MenuItem)
    (h : get_menu env = .ok items) :
    mapE (fun doc => MenuItem.ofDoc (filterFields MenuItem.model_fields doc))
      (d.colls "menuitem") = .ok items := by
  cases hmap : mapE (fun doc => MenuItem.ofDoc (filterFields MenuItem.model_fields doc))
      (d.colls "menuitem") with
  | error m => rw [get_menu_err env d hdb hh m hmap] at h; cases h
  | ok xs => rw [get_menu_ok env d hdb hh xs hmap] at h; injection h with hEq; rw [hEq]

/-- Inversion of a successful `/testimonials` read over a healthy handle. -/
theorem get_testimonials_ok_inv (env : Env) (d : DB) (hdb : env.db = some d)
    (hh : d.healthy = true) (items : List Testimonial)
    (h : get_testimonials env = .ok items) :
    mapE (fun doc => Testimonial.ofDoc (filterFields Testimonial.model_fields doc))
      (d.colls "testimonial") = .ok items := by
  cases hmap : mapE (fun doc => Testimonial.ofDoc (filterFields Testimonial.model_fields doc))
      (d.colls "testimonial") with
  | error m => rw [get_testimonials_err env d hdb hh m hmap] at h; cases h
  | ok xs => rw [get_testimonials_ok env d hdb hh xs hmap] at h; injection h with hEq; rw [hEq]

/-- Inversion of a successful `/gallery` read over a healthy handle. -/
theorem get_gallery_ok_inv (env : Env) (d : DB) (hdb : env.db = some d)
    (hh : d.healthy = true) (items : List GalleryImage)
    (h : get_gallery env = .ok items) :
    mapE (fun doc => GalleryImage.ofDoc (filterFields GalleryImage.model_fields doc))
      (d.colls "galleryimage") = .ok items := by
  cases hmap : mapE (fun doc => GalleryImage.ofDoc (filterFields GalleryImage.model_fields doc))
      (d.colls "galleryimage") with
  | error m => rw [get_gallery_err env d hdb hh m hmap] at h; cases h
  | ok xs => rw [get_gallery_ok env d hdb hh xs hmap] at h; injection h with hEq; rw [hEq]

/-- C10 (implicit): the read endpoints are all-or-nothing.  Over a healthy
store, a single stored document failing schema validation makes the whole
request fail (the exception escapes the handler); a successful response
certifies every stored document and returns one item per document — no bad
document is skipped. -/
theorem reads_all_or_nothing (env : Env) (d : DB) (hdb : env.db = some d)
    (hh : d.healthy = true) :
    ((∃ doc ∈ d.colls "menuitem",
        exOk (MenuItem.ofDoc (filterFields MenuItem.model_fields doc)) = false) →
      ∃ m, get_menu env = .unhandled m) ∧
    (∀ items, get_menu env = .ok items →
      items.length = (d.colls "menuitem").length ∧
      ∀ doc ∈ d.colls "menuitem",
        exOk (MenuItem.ofDoc (filterFields MenuItem.model_fields doc)) = true) ∧
    ((∃ doc ∈ d.colls "testimonial",
        exOk (Testimonial.ofDoc (filterFields Testimonial.model_fields doc)) = false) →
      ∃ m, get_testimonials env = .unhandled m) ∧
    (∀ items, get_testimonials env = .ok items →
      items.length = (d.colls "testimonial").length ∧
      ∀ doc ∈ d.colls "testimonial",
        exOk (Testimonial.ofDoc (filterFields Testimonial.model_fields doc)) = true) ∧
    ((∃ doc ∈ d.colls "galleryimage",
        exOk (GalleryImage.ofDoc (filterFields GalleryImage.model_fields doc)) = false) →
      ∃ m, get_gallery env = .unhandled m) ∧
    (∀ items, get_gallery env = .ok items →
      items.length = (d.colls "galleryimage").length ∧
      ∀ doc ∈ d.colls "galleryimage",
        exOk (GalleryImage.ofDoc (filterFields GalleryImage.model_fields doc)) = true) := by
  refine ⟨?_, ?_, ?_, ?_, ?_, ?_⟩
  · rintro ⟨doc, hmem, hbad⟩
    obtain ⟨m, hm⟩ := mapE_error_of_mem
      (fun doc => MenuItem.ofDoc (filterFields MenuItem.model_fields doc))
      (d.colls "menuitem") doc hmem hbad
    exact ⟨m, get_menu_err env d hdb hh m hm⟩
  · intro items h
    have hmap := get_menu_ok_inv env d hdb hh items h
    exact ⟨mapE_ok_length _ _ items hmap, mapE_ok_all _ _ items hmap⟩
  · rintro ⟨doc, hmem, hbad⟩
    obtain ⟨m, hm⟩ := mapE_error_of_mem
      (fun doc => Testimonial.ofDoc (filterFields Testimonial.model_fields doc))
      (d.colls "testimonial") doc hmem hbad
    exact ⟨m, get_testimonials_err env d hdb hh m hm⟩
  · intro items h
    have hmap := get_testimonials_ok_inv env d hdb hh items h
    exact ⟨mapE_ok_length _ _ items hmap, mapE_ok_all _ _ items hmap⟩
  · rintro ⟨doc, hmem, hbad⟩
    obtain ⟨m, hm⟩ := mapE_error_of_mem
      (fun doc => GalleryImage.ofDoc (filterFields GalleryImage.model_fields doc))
      (d.colls "galleryimage") doc hmem hbad
    exact ⟨m, get_gallery_err env d hdb hh m hm⟩
  · intro items h
    have hmap := get_gallery_ok_inv env d hdb hh items h
    exact ⟨mapE_ok_length _ _ items hmap, mapE_ok_all _ _ items hmap⟩

/-- Witness for C10 at the concrete state `badDocEnv`, whose single `menuitem`
document lacks required fields: the whole `/menu` request fails. -/
theorem reads_all_or_nothing_witness :
    ∃ m, get_menu badDocEnv = .unhandled m :=
  (reads_all_or_nothing badDocEnv badDocDB rfl rfl).1
    ⟨[("title", Value.str "only a title")], by decide, by decide⟩

/-- A validator that reads only recognized fields is insensitive to
per-document unrecognized junk appended to each stored document. -/
theorem mapE_strip_junk {α : Type} (flds : List String) (g : Doc → Except String α) :
    ∀ (docs junks : List Doc), docs.length = junks.length →
    (∀ junk ∈ junks, ∀ kv ∈ junk, flds.contains kv.1 = false) →
    mapE (fun doc => g (filterFields flds doc))
      (List.zipWith (fun doc junk => doc ++ junk) docs junks)
      = mapE (fun doc => g (filterFields flds doc)) docs := by
  intro docs
  induction docs with
  | nil =>
    intro junks _ _
    rfl
  | cons doc rest ih =>
    intro junks hlen hjunk
    cases junks with
    | nil => simp at hlen
    | cons junk jrest =>
      simp only [List.zipWith, mapE]
      have hg : g (filterFields flds (doc ++ junk)) = g (filterFields flds doc) := by
        rw [filterFields_append, filterFields_none flds junk (hjunk junk (by simp)),
          List.append_nil]
      rw [hg, ih jrest (by simpa using hlen) (fun j hj => hjunk j (by simp [hj]))]

/-- C3: Schema filtering on reads.  For every store state, every document
stored in the `menuitem` (resp. `testimonial`, `galleryimage`) collection —
its declared schema fields plus any unrecognized fields, the store-assigned
`_id` included, since no schema declares `_id` — is returned by the
corresponding read endpoint as exactly the typed record of its declared
fields, one item per stored document in order; the unrecognized fields are
stripped before serialization. -/
theorem schema_filtering :
    (∀ (env : Env) (d : DB) (docs junks : List Doc) (items : List MenuItem),
      env.db = some d → d.healthy = true →
      docs.length = junks.length →
      d.colls "menuitem" = List.zipWith (fun doc junk => doc ++ junk) docs junks →
      (∀ junk ∈ junks, ∀ kv ∈ junk, MenuItem.model_fields.contains kv.1 = false) →
      mapE (fun doc => MenuItem.ofDoc (filterFields MenuItem.model_fields doc)) docs
        = .ok items →
      get_menu env = .ok items) ∧
    (∀ (env : Env) (d : DB) (docs junks : List Doc) (items : List Testimonial),
      env.db = some d → d.healthy = true →
      docs.length = junks.length →
      d.colls "testimonial" = List.zipWith (fun doc junk => doc ++ junk) docs junks →
      (∀ junk ∈ junks, ∀ kv ∈ junk, Testimonial.model_fields.contains kv.1 = false) →
      mapE (fun doc => Testimonial.ofDoc (filterFields Testimonial.model_fields doc)) docs
        = .ok items →
      get_testimonials env = .ok items) ∧
    (∀ (env : Env) (d : DB) (docs junks : List Doc) (items : List GalleryImage),
      env.db = some d → d.healthy = true →
      docs.length = junks.length →
      d.colls "galleryimage" = List.zipWith (fun doc junk => doc ++ junk) docs junks →
      (∀ junk ∈ junks, ∀ kv ∈ junk, GalleryImage.model_fields.contains kv.1 = false) →
      mapE (fun doc => GalleryImage.ofDoc (filterFields GalleryImage.model_fields doc)) docs
        = .ok items →
      get_gallery env = .ok items) ∧
    MenuItem.model_fields.contains "_id" = false ∧
    Testimonial.model_fields.contains "_id" = false ∧
    GalleryImage.model_fields.contains "_id" = false := by
  refine ⟨?_, ?_, ?_, by decide, by decide, by decide⟩
  · intro env d docs junks items hdb hh hlen hcoll hjunk hval
    apply get_menu_ok env d hdb hh
    rw [hcoll, mapE_strip_junk MenuItem.model_fields MenuItem.ofDoc docs junks hlen hjunk]
    exact hval
  · intro env d docs junks items hdb hh hlen hcoll hjunk hval
    apply get_testimonials_ok env d hdb hh
    rw [hcoll, mapE_strip_junk Testimonial.model_fields Testimonial.ofDoc docs junks hlen hjunk]
    exact hval
  · intro env d docs junks items hdb hh hlen hcoll hjunk hval
    apply get_gallery_ok env d hdb hh
    rw [hcoll, mapE_strip_junk GalleryImage.model_fields GalleryImage.ofDoc docs junks hlen hjunk]
    exact hval

/-- Witness for C3 at the concrete two-document state `twoItemEnv`: both
stored `menuitem` documents carry unrecognized fields (a stray field and a
store-assigned `_id`), and `/menu` returns exactly the two typed records of
their declared fields, in order. -/
theorem schema_filtering_witness :
    get_menu twoItemEnv = .ok [oysterItem, trufflesItem] :=
  schema_filtering.1 twoItemEnv twoItemDB [oysterDoc, trufflesDoc] [junkPart, idJunk]
    [oysterItem, trufflesItem] rfl rfl rfl rfl (by decide) rfl

/-- Counterexample to C7 as stated: at the connected state `demoEnv` (database
named "cateringdb", connection established), the returned `database_name`
field is the environment-variable marker "✅ Set", not the configured database
name — lines 144-145 of `main.py` unconditionally overwrite the name assigned
at line 131. -/
theorem test_database_name_counterexample :
    respField (test_database demoEnv) "database_name" = some (RVal.s "✅ Set") ∧
    respField (test_database demoEnv) "database_name" ≠ some (RVal.s "cateringdb") := by
  constructor
  · rfl
  · decide

/-- C7 (amended): `GET /test` returns an object with exactly the fixed keys
backend, database, database_url, database_name, connection_status,
collections; but `database_name` (like `database_url`) only reports whether
the corresponding environment variable is set — the configured database name
written mid-handler is overwritten before the response is returned. -/
theorem test_database_keys (env : Env) :
    (test_database env).map Prod.fst
      = ["backend", "database", "database_url", "database_name",
         "connection_status", "collections"] ∧
    respField (test_database env) "database_url"
      = some (RVal.s (if envTruthy env.envDatabaseUrl then "✅ Set" else "❌ Not Set")) ∧
    respField (test_database env) "database_name"
      = some (RVal.s (if envTruthy env.envDatabaseName then "✅ Set" else "❌ Not Set")) := by
  rcases env with ⟨db, u, nm⟩
  cases db with
  | none => refine ⟨?_, ?_, ?_⟩ <;> simp [test_database, setk, respField]
  | some d =>
    cases hh : d.healthy with
    | true =>
      refine ⟨?_, ?_, ?_⟩ <;>
        simp [test_database, list_collection_names, hh, setk, respField]
    | false =>
      refine ⟨?_, ?_, ?_⟩ <;>
        simp [test_database, list_collection_names, hh, setk, respField]

/-- C8: `GET /test` never raises.  For every storage state — the connection
never established (`db` is `None`) and a raising `list_collection_names`
included — the handler returns the response object with `database` set to a
degraded status string, and `collections` holds at most 10 entries. -/
theorem test_never_raises (env : Env) :
    (∃ l, respField (test_database env) "collections" = some (RVal.list l) ∧
      l.length ≤ 10) ∧
    (env.db = none →
      respField (test_database env) "database"
        = some (RVal.s "⚠️  Available but not initialized")) ∧
    (∀ d, env.db = some d → d.healthy = false →
      respField (test_database env) "database"
        = some (RVal.s ("⚠️  Connected but Error: " ++ d.failMsg.take 50))) := by
  rcases env with ⟨db, u, nm⟩
  cases db with
  | none =>
    refine ⟨⟨[], ?_, by simp⟩, ?_, ?_⟩
    · simp [test_database, setk, respField]
    · intro _
      simp [test_database, setk, respField]
    · intro d h
      cases h
  | some d =>
    cases hh : d.healthy with
    | true =>
      refine ⟨⟨d.collNames.take 10, ?_, ?_⟩, ?_, ?_⟩
      · simp [test_database, list_collection_names, hh, setk, respField]
      · simp only [List.length_take]
        exact min_le_left 10 _
      · intro h
        cases h
      · intro d2 h2 hh2
        injection h2 with hEq
        rw [← hEq] at hh2
        rw [hh] at hh2
        cases hh2
    | false =>
      refine ⟨⟨[], ?_, by simp⟩, ?_, ?_⟩
      · simp [test_database, list_collection_names, hh, setk, respField]
      · intro h
        cases h
      · intro d2 h2 hh2
        injection h2 with hEq
        subst hEq
        simp [test_database, list_collection_names, hh, setk, respField]

/-- Witness for C8 at concrete states: the never-configured state and the
down-connection state. -/
theorem test_never_raises_witness :
    (∃ l, respField (test_database noneEnv) "collections" = some (RVal.list l) ∧
      l.length ≤ 10) ∧
    respField (test_database noneEnv) "database"
      = some (RVal.s "⚠️  Available but not initialized") ∧
    respField (test_database downEnv) "database"
      = some (RVal.s ("⚠️  Connected but Error: " ++ downDB.failMsg.take 50)) :=
  ⟨(test_never_raises noneEnv).1,
   (test_never_raises noneEnv).2.1 rfl,
   (test_never_raises downEnv).2.2 downDB rfl rfl⟩
